import Mathlib

/-
Shallow embedding of Oclgrind's RaceDetector plugin
(src/src/plugins/RaceDetector.cpp) and verification of the spec's claims
about it.

The plugin maintains a per-byte shadow state of every non-private memory
region and reports data races.  The embedding below translates the C++
handlers into pure Lean functions; each handler takes the detector state
(and the event payload) and returns the new detector state together with
the list of diagnostics emitted by the event.
-/

set_option maxRecDepth 10000

namespace Oclgrind

/-- Sentinel for "no index": the C++ code stores `(size_t)-1` in `size_t`
fields (`workItem`, `workGroup`, `workItemIndex`, `workGroupIndex`). -/
def NONE : Nat := 2 ^ 64 - 1

/-- Address spaces (core/common.h is not under src/; the enumeration is
taken from the spec's data model, which the detector only compares
against `AddrSpacePrivate`). -/
inductive AddrSpace where
  | Private
  | Local
  | Global
  | Constant
deriving DecidableEq, Repr

/-- Modelled from the spec: the interpreter's `Memory` object (core/Memory.h
is not under src/).  The detector uses only its pointer identity (map key,
modelled by `id`), `getAddressSpace()`, and `getPointer(address)` for the
uniform-write filter; `contents a` is the byte currently stored at absolute
address `a`, so that `getPointer(address)[offset] = contents (address + offset)`. -/
structure Memory where
  id : Nat
  addressSpace : AddrSpace
  contents : Nat → Nat

/-- Modelled from the spec: a work-group descriptor (core/WorkGroup.h is not
under src/).  The detector calls `getGroupIndex()` and `getLocalMemory()`. -/
structure WorkGroup where
  groupIndex : Nat
  localMemory : Memory

/-- Modelled from the spec: a work-item descriptor (core/WorkItem.h is not
under src/).  The detector calls `getGlobalIndex()` (the linearized 3-D
global index), `getCurrentInstruction()` (an opaque handle, possibly null)
and `getWorkGroup()`. -/
structure WorkItem where
  globalIndex : Nat
  currentInstruction : Option Nat
  workGroup : WorkGroup

/-- A 3-D size/coordinate triple (core/common.h `Size3`). -/
structure Size3 where
  x : Nat
  y : Nat
  z : Nat
deriving DecidableEq, Repr

/-- Modelled from the spec: the `Size3(linear, dims)` constructor of
core/common.h (not under src/) — the standard row-major decomposition of a
linearized index over a 3-D size. -/
def size3FromLinear (i : Nat) (d : Size3) : Size3 :=
  ⟨i % d.x, (i / d.x) % d.y, i / (d.x * d.y)⟩

/-- Modelled from the spec: the kernel-invocation descriptor
(core/KernelInvocation.h is not under src/).  The detector reads
`getGlobalSize()`, `getLocalSize()` and `getNumGroups()`. -/
structure KernelInvocation where
  globalSize : Size3
  localSize : Size3
  numGroups : Size3
deriving DecidableEq, Repr

/-- The race kinds of RaceDetector.h. -/
inductive DataRaceType where
  | ReadWriteRace
  | WriteWriteRace
deriving DecidableEq, Repr

/-- Per-byte shadow state, `RaceDetector::State`.  `State::State()` gives
the initial value `State.init` below. -/
structure State where
  instruction : Option Nat
  workItem : Nat
  workGroup : Nat
  canAtomic : Bool
  canRead : Bool
  canWrite : Bool
  wasWorkItem : Bool
deriving DecidableEq, Repr

/-- Source `State::State()` (lines 288-297). -/
def State.init : State :=
  ⟨none, NONE, NONE, true, true, true, false⟩

/-- Modelled from the spec: `EXTRACT_BUFFER` of core/common.h (not under
src/) — the high 16 bits of a 64-bit address are the buffer id. -/
def EXTRACT_BUFFER (address : Nat) : Nat := address / 2 ^ 48

/-- Modelled from the spec: `EXTRACT_OFFSET` of core/common.h (not under
src/) — the low 48 bits of a 64-bit address are the byte offset. -/
def EXTRACT_OFFSET (address : Nat) : Nat := address % 2 ^ 48

/-- Map key: `make_pair(memory, EXTRACT_BUFFER(address))`, with the
`Memory*` pointer identity modelled by `Memory.id`. -/
abbrev Key := Nat × Nat

/-- The mapped value `pair<State*,size_t>`: the shadow array (a total
function; `none` models the null pointer of a value-initialized entry)
and the region size. -/
abbrev ShadowObj := Option (Nat → State) × Nat

/-- Embeds `m_state`, a `std::map<pair<const Memory*,size_t>, pair<State*,size_t>>`,
modelled as an association list with unique keys. -/
abbrev StateMap := List (Key × ShadowObj)

/-- Lookup of a key in the map. -/
def StateMap.find : StateMap → Key → Option ShadowObj
  | [], _ => none
  | e :: t, k => if e.1 == k then some e.2 else StateMap.find t k

/-- Store a value at a key (overwriting an existing entry, inserting
otherwise). -/
def StateMap.set : StateMap → Key → ShadowObj → StateMap
  | [], k, v => [(k, v)]
  | e :: t, k, v => if e.1 == k then (k, v) :: t else e :: StateMap.set t k v

/-- Models `std::map::operator[]`: returns the mapped value, value-initializing
(and inserting) `(nullptr, 0)` if the key is absent. -/
def StateMap.index (m : StateMap) (k : Key) : StateMap × ShadowObj :=
  match StateMap.find m k with
  | some obj => (m, obj)
  | none => (StateMap.set m k (none, 0), (none, 0))

/-- Models `std::map::erase` by key (no-op when the key is absent). -/
def StateMap.erase (m : StateMap) (k : Key) : StateMap :=
  m.filter (fun e => !(e.1 == k))

/-- Read one shadow byte through the stored pointer.  A `none` array is the
null pointer of a default-inserted entry: dereferencing it is undefined
behaviour in the C++ source; the model returns the initial state there
(no claim depends on that case). -/
def readShadow (sh : Option (Nat → State)) (i : Nat) : State :=
  match sh with
  | some f => f i
  | none => State.init

/-- Write one shadow byte through the stored pointer (writes through the
null pointer of a default-inserted entry are dropped, see `readShadow`). -/
def writeShadow (sh : Option (Nat → State)) (i : Nat) (s : State) :
    Option (Nat → State) :=
  sh.map (fun f j => if j = i then s else f j)

/-- The record passed to `RaceDetector::logRace` (lines 123-178).  The
field names follow the declared parameter list of `logRace`:
`(type, addrSpace, address, lastWorkGroup, lastWorkItem, lastInstruction)`;
note that both call sites pass `state->workItem` as the fourth argument
and `state->workGroup` as the fifth. -/
structure Diagnostic where
  raceType : DataRaceType
  addrSpace : AddrSpace
  address : Nat
  lastWorkGroup : Nat
  lastWorkItem : Nat
  lastInstruction : Option Nat
deriving DecidableEq, Repr

/-- Source `RaceDetector::logRace`: the diagnostic record, with the arguments in
the declared parameter order. -/
def logRace (type : DataRaceType) (addrSpace : AddrSpace)
    (address lastWorkGroup lastWorkItem : Nat)
    (lastInstruction : Option Nat) : Diagnostic :=
  ⟨type, addrSpace, address, lastWorkGroup, lastWorkItem, lastInstruction⟩

/-- How the body of `logRace` (lines 153-174) renders the "Second entity"
of the diagnostic from its `lastWorkGroup`/`lastWorkItem` parameters and
the current kernel invocation. -/
inductive SecondEntity where
  | workItemCoords (globalId localId groupId : Size3)
  | groupCoords (groupId : Size3)
  | unknown
deriving DecidableEq, Repr

/-- The "Second entity" computation of `logRace` (lines 153-174): if
`lastWorkItem != -1`, decompose it as a global work-item index over the
kernel's global size and derive local/group coordinates from the local
size; otherwise if `lastWorkGroup != -1`, decompose it as a group index
over the group count; otherwise `(unknown)`. -/
def renderSecondEntity (ki : KernelInvocation) (d : Diagnostic) : SecondEntity :=
  if d.lastWorkItem ≠ NONE then
    let g := size3FromLinear d.lastWorkItem ki.globalSize
    let l : Size3 := ⟨g.x % ki.localSize.x, g.y % ki.localSize.y, g.z % ki.localSize.z⟩
    let grp : Size3 := ⟨g.x / ki.localSize.x, g.y / ki.localSize.y, g.z / ki.localSize.z⟩
    SecondEntity.workItemCoords g l grp
  else if d.lastWorkGroup ≠ NONE then
    SecondEntity.groupCoords (size3FromLinear d.lastWorkGroup ki.numGroups)
  else
    SecondEntity.unknown

/-- The detector's state: `m_allowUniformWrites`, `m_kernelInvocation`,
the context's global memory (only its identity is used) and `m_state`. -/
structure RaceDetector where
  allowUniformWrites : Bool
  kernelInvocation : Option KernelInvocation
  globalMemory : Memory
  state : StateMap

/-- Source `RaceDetector::RaceDetector` (lines 24-30): `m_kernelInvocation = NULL`
and `m_allowUniformWrites = !checkEnv("OCLGRIND_UNIFORM_WRITES")`;
`envUniformWrites` is the presence of that environment variable. -/
def RaceDetector.create (envUniformWrites : Bool) (globalMemory : Memory) :
    RaceDetector :=
  ⟨!envUniformWrites, none, globalMemory, []⟩

/-- Source `RaceDetector::kernelBegin` (lines 32-35). -/
def RaceDetector.kernelBegin (rd : RaceDetector)
    (kernelInvocation : KernelInvocation) : RaceDetector :=
  { rd with kernelInvocation := some kernelInvocation }

/-- Source `RaceDetector::memoryAllocated` (lines 44-51). -/
def RaceDetector.memoryAllocated (rd : RaceDetector) (memory : Memory)
    (address size : Nat) : RaceDetector :=
  if memory.addressSpace = AddrSpace.Private then rd
  else
    let key : Key := (memory.id, EXTRACT_BUFFER address)
    { rd with state := StateMap.set rd.state key (some (fun _ => State.init), size) }

/-- Source `RaceDetector::memoryDeallocated` (lines 86-93). -/
def RaceDetector.memoryDeallocated (rd : RaceDetector) (memory : Memory)
    (address : Nat) : RaceDetector :=
  if memory.addressSpace = AddrSpace.Private then rd
  else
    { rd with state := StateMap.erase rd.state (memory.id, EXTRACT_BUFFER address) }

/-- The `conflict` computation of `registerLoadStore` (lines 211-216): a
store conflicts when `canWrite` is cleared, a load when `canRead` is
cleared; when `m_allowUniformWrites` is set and this is a store, the byte
only conflicts if the value written differs from the current memory
content at that offset. -/
def lsConflict (auw : Bool) (memory : Memory) (address : Nat)
    (storeData : Option (Nat → Nat)) (offset : Nat) (s : State) : Bool :=
  let conflict0 : Bool := if storeData.isSome then !s.canWrite else !s.canRead
  match storeData with
  | some data =>
    if auw then conflict0 && (memory.contents (address + offset) != data offset)
    else conflict0
  | none => conflict0

/-- The actor comparison of `registerLoadStore` (lines 219-221): if the
state was set by a work-item the current work-item must differ, otherwise
the current work-group must differ, for the conflict to be a race. -/
def lsOtherActor (wiIdx wgIdx : Nat) (s : State) : Bool :=
  if s.wasWorkItem then s.workItem != wiIdx else s.workGroup != wgIdx

/-- The race-kind computation of `registerLoadStore` (line 225):
`load | state->canRead ? ReadWriteRace : WriteWriteRace`. -/
def lsRaceType (storeData : Option (Nat → Nat)) (s : State) : DataRaceType :=
  if storeData.isNone || s.canRead then DataRaceType.ReadWriteRace
  else DataRaceType.WriteWriteRace

/-- The state update of `registerLoadStore` (lines 235-251): clear
`canAtomic` and `canWrite`, keep `canRead` only for a load, and record the
current actor when this operation is at least as strong as the previous
one (`updateWI = store || (load && canWrite)`). -/
def lsUpdate (wiIdx wgIdx : Nat) (workItem : Option WorkItem)
    (storeData : Option (Nat → Nat)) (s : State) : State :=
  let updateWI : Bool := storeData.isSome || (storeData.isNone && s.canWrite)
  let s1 : State :=
    { s with canAtomic := false, canRead := s.canRead && storeData.isNone,
             canWrite := false }
  if updateWI then
    let t := { s1 with workGroup := wgIdx }
    match workItem with
    | some w =>
      { t with instruction := w.currentInstruction, workItem := wiIdx,
               wasWorkItem := true }
    | none => t
  else s1

/-- The per-byte loop of `RaceDetector::registerLoadStore` (lines 209-253),
threading the shadow array, the `race` latch and the emitted diagnostics
over the byte offsets of the access.  `wiIdx`/`wgIdx` are `workItemIndex`/
`workGroupIndex`; `storeData = none` is a load. -/
def lsBytes (auw : Bool) (memory : Memory) (wiIdx wgIdx : Nat)
    (workItem : Option WorkItem) (address : Nat)
    (storeData : Option (Nat → Nat)) (base : Nat) :
    List Nat → Option (Nat → State) → Bool → List Diagnostic →
      Option (Nat → State) × Bool × List Diagnostic
  | [], sh, race, diags => (sh, race, diags)
  | offset :: rest, sh, race, diags =>
    let s := readShadow sh (base + offset)
    if !race && lsConflict auw memory address storeData offset s &&
        lsOtherActor wiIdx wgIdx s then
      lsBytes auw memory wiIdx wgIdx workItem address storeData base rest sh true
        (diags ++ [logRace (lsRaceType storeData s) memory.addressSpace
          (address + offset) s.workItem s.workGroup s.instruction])
    else
      lsBytes auw memory wiIdx wgIdx workItem address storeData base rest
        (writeShadow sh (base + offset) (lsUpdate wiIdx wgIdx workItem storeData s))
        race diags

/-- Source `RaceDetector::registerLoadStore` (lines 180-254). -/
def RaceDetector.registerLoadStore (rd : RaceDetector) (memory : Memory)
    (workItem : Option WorkItem) (workGroup : Option WorkGroup)
    (address size : Nat) (storeData : Option (Nat → Nat)) :
    RaceDetector × List Diagnostic :=
  if rd.kernelInvocation.isNone then (rd, [])
  else if memory.addressSpace = AddrSpace.Private then (rd, [])
  else
    let wiIdx : Nat :=
      match workItem with
      | some w => w.globalIndex
      | none => NONE
    let wgIdx : Nat :=
      match workGroup with
      | some g => g.groupIndex
      | none => NONE
    let key : Key := (memory.id, EXTRACT_BUFFER address)
    let base : Nat := EXTRACT_OFFSET address
    let p := StateMap.index rd.state key
    let r := lsBytes rd.allowUniformWrites memory wiIdx wgIdx workItem address
      storeData base (List.range size) p.2.1 false []
    ({ rd with state := StateMap.set p.1 key (r.1, p.2.2) }, r.2.2)

/-- Source `RaceDetector::memoryLoad` (work-item form, lines 95-100). -/
def RaceDetector.memoryLoadWI (rd : RaceDetector) (memory : Memory)
    (workItem : WorkItem) (address size : Nat) : RaceDetector × List Diagnostic :=
  rd.registerLoadStore memory (some workItem) (some workItem.workGroup)
    address size none

/-- Source `RaceDetector::memoryLoad` (work-group form, lines 102-106). -/
def RaceDetector.memoryLoadWG (rd : RaceDetector) (memory : Memory)
    (workGroup : WorkGroup) (address size : Nat) : RaceDetector × List Diagnostic :=
  rd.registerLoadStore memory none (some workGroup) address size none

/-- Source `RaceDetector::memoryStore` (work-item form, lines 108-114). -/
def RaceDetector.memoryStoreWI (rd : RaceDetector) (memory : Memory)
    (workItem : WorkItem) (address size : Nat) (storeData : Nat → Nat) :
    RaceDetector × List Diagnostic :=
  rd.registerLoadStore memory (some workItem) (some workItem.workGroup)
    address size (some storeData)

/-- Source `RaceDetector::memoryStore` (work-group form, lines 116-121). -/
def RaceDetector.memoryStoreWG (rd : RaceDetector) (memory : Memory)
    (workGroup : WorkGroup) (address size : Nat) (storeData : Nat → Nat) :
    RaceDetector × List Diagnostic :=
  rd.registerLoadStore memory none (some workGroup) address size (some storeData)

/-- The per-byte loop of `RaceDetector::memoryAtomic` (lines 61-83).  Note
that, unlike `lsBytes`, there is no `race` latch (every conflicting byte
logs), the logged address is the access base `address` (not
`address + offset`), and the state update runs also for a byte that
raced. -/
def atomicBytes (memory : Memory) (workItem : WorkItem) (address base : Nat) :
    List Nat → Option (Nat → State) → List Diagnostic →
      Option (Nat → State) × List Diagnostic
  | [], sh, diags => (sh, diags)
  | offset :: rest, sh, diags =>
    let s := readShadow sh (base + offset)
    let diags1 :=
      if !s.canAtomic && (workItem.globalIndex != s.workItem) then
        diags ++ [logRace DataRaceType.ReadWriteRace memory.addressSpace address
          s.workItem s.workGroup s.instruction]
      else diags
    let s1 : State := { s with canRead := false, canWrite := false }
    let s2 : State :=
      if !s.wasWorkItem then
        { s1 with instruction := workItem.currentInstruction,
                  workItem := workItem.globalIndex, wasWorkItem := true }
      else s1
    atomicBytes memory workItem address base rest
      (writeShadow sh (base + offset) s2) diags1

/-- Source `RaceDetector::memoryAtomic` (lines 53-84).  Note the absence of both
the `m_kernelInvocation` guard and the `AddrSpacePrivate` guard that
`registerLoadStore` has; `m_state[KEY(memory,address)]` value-initializes
(and inserts) an entry when the key is absent.  The `op` argument is
unused by the source. -/
def RaceDetector.memoryAtomic (rd : RaceDetector) (memory : Memory)
    (workItem : WorkItem) (_op : Nat) (address size : Nat) :
    RaceDetector × List Diagnostic :=
  let key : Key := (memory.id, EXTRACT_BUFFER address)
  let base : Nat := EXTRACT_OFFSET address
  let p := StateMap.index rd.state key
  let r := atomicBytes memory workItem address base (List.range size) p.2.1 []
  ({ rd with state := StateMap.set p.1 key (r.1, p.2.2) }, r.2)

/-- The per-byte reset applied by `RaceDetector::synchronize`
(lines 265-276). -/
def syncState (workGroup : Bool) (s : State) : State :=
  let s1 := { s with canAtomic := true, workItem := NONE, wasWorkItem := false }
  if workGroup then s1
  else { s1 with workGroup := NONE, canRead := true, canWrite := true }

/-- The effect of `RaceDetector::synchronize` on one map entry: regions of
a different memory object are skipped; otherwise every byte in `[0, size)`
is reset. -/
def syncObj (memId : Nat) (workGroup : Bool) (k : Key) (obj : ShadowObj) :
    ShadowObj :=
  if k.1 = memId then
    (obj.1.map (fun f j => if j < obj.2 then syncState workGroup (f j) else f j),
     obj.2)
  else obj

/-- Source `RaceDetector::synchronize` (lines 256-278). -/
def RaceDetector.synchronize (rd : RaceDetector) (memory : Memory)
    (workGroup : Bool) : RaceDetector :=
  { rd with state := rd.state.map (fun e => (e.1, syncObj memory.id workGroup e.1 e.2)) }

/-- Source `RaceDetector::kernelEnd` (lines 37-42). -/
def RaceDetector.kernelEnd (rd : RaceDetector)
    (_kernelInvocation : KernelInvocation) : RaceDetector :=
  { rd.synchronize rd.globalMemory false with kernelInvocation := none }

/-- Modelled from the spec: the `CLK_LOCAL_MEM_FENCE` flag bit
(core/common.h is not under src/). -/
def CLK_LOCAL_MEM_FENCE : Nat := 1

/-- Modelled from the spec: the `CLK_GLOBAL_MEM_FENCE` flag bit
(core/common.h is not under src/). -/
def CLK_GLOBAL_MEM_FENCE : Nat := 2

/-- Source `RaceDetector::workGroupBarrier` (lines 280-286). -/
def RaceDetector.workGroupBarrier (rd : RaceDetector) (workGroup : WorkGroup)
    (flags : Nat) : RaceDetector :=
  let rd1 :=
    if flags &&& CLK_LOCAL_MEM_FENCE ≠ 0 then
      rd.synchronize workGroup.localMemory false
    else rd
  if flags &&& CLK_GLOBAL_MEM_FENCE ≠ 0 then
    rd1.synchronize rd1.globalMemory true
  else rd1

/-- Observable: the shadow byte at offset `i` of the region keyed `k`
(the initial state when the region or its array is absent). -/
def RaceDetector.byteAt (rd : RaceDetector) (k : Key) (i : Nat) : State :=
  match StateMap.find rd.state k with
  | some obj => readShadow obj.1 i
  | none => State.init

/-- Observable: the recorded size of the region keyed `k` (0 if absent). -/
def RaceDetector.sizeAt (rd : RaceDetector) (k : Key) : Nat :=
  match StateMap.find rd.state k with
  | some obj => obj.2
  | none => 0

/- Concrete fixtures for the scenario theorems: a kernel with global size 4
and local size 2 (two groups of two work-items), a global memory object and
one global buffer with id 1. -/

/-- Concrete global memory object (initial contents all zero). -/
def gmem : Memory := ⟨0, AddrSpace.Global, fun _ => 0⟩

/-- Concrete local memory of group 0. -/
def lmem0 : Memory := ⟨100, AddrSpace.Local, fun _ => 0⟩

/-- Concrete local memory of group 1. -/
def lmem1 : Memory := ⟨101, AddrSpace.Local, fun _ => 0⟩

/-- Concrete work-group 0. -/
def wg0 : WorkGroup := ⟨0, lmem0⟩

/-- Concrete work-group 1. -/
def wg1 : WorkGroup := ⟨1, lmem1⟩

/-- Concrete kernel invocation: global size 4, local size 2, 2 groups. -/
def ki4x2 : KernelInvocation := ⟨⟨4, 1, 1⟩, ⟨2, 1, 1⟩, ⟨2, 1, 1⟩⟩

/-- Base address of the global buffer with buffer id 1. -/
def bufA : Nat := 2 ^ 48

/-- Concrete work-item 0 of group 0 (current instruction handle 5). -/
def wiG0 : WorkItem := ⟨0, some 5, wg0⟩

/-- Concrete work-item 2 of group 1 (current instruction handle 7). -/
def wiG2 : WorkItem := ⟨2, some 7, wg1⟩

/-- Concrete private memory object. -/
def pmem : Memory := ⟨5, AddrSpace.Private, fun _ => 0⟩

/-- Detector constructed with the environment variable unset, after
`kernelBegin` and allocation of the 16-byte global buffer 1. -/
def rdReady : RaceDetector :=
  ((RaceDetector.create false gmem).kernelBegin ki4x2).memoryAllocated gmem bufA 16

/-- Global memory contents after work-item 2 stored `0xBB` at `bufA`. -/
def gmemBB : Memory := ⟨0, AddrSpace.Global, fun a => if a = bufA then 0xBB else 0⟩

/-- First store of the C1 scenario: work-item 2 (group 1) stores `0xBB`
at byte 0 of the global buffer. -/
def c1store1 : RaceDetector × List Diagnostic :=
  rdReady.memoryStoreWI gmem wiG2 bufA 1 (fun _ => 0xBB)

/-- Second store of the C1 scenario: work-item 0 (group 0) stores `0xAA`
at the same byte, racing with the first store. -/
def c1run : RaceDetector × List Diagnostic :=
  c1store1.1.memoryStoreWI gmemBB wiG0 bufA 1 (fun _ => 0xAA)

/-- The C2 scenario, parametric in `allow-uniform-writes`, the two
work-item indices, the stored value and the memory content at the store:
work-item `i0` (group 0) performs a 1-byte atomic access at byte 12 of the
global buffer; then work-item `i2` (group 1) stores `v` there while memory
holds `c`. -/
def c2scenario (auw : Bool) (i0 i2 v c : Nat) : RaceDetector × List Diagnostic :=
  let wiA : WorkItem := ⟨i0, some 5, wg0⟩
  let wiB : WorkItem := ⟨i2, some 7, wg1⟩
  let mem2 : Memory := ⟨0, AddrSpace.Global, fun _ => c⟩
  let rd0 : RaceDetector :=
    (RaceDetector.mk auw (some ki4x2) gmem []).memoryAllocated gmem bufA 16
  let r1 := rd0.memoryAtomic gmem wiA 0 (bufA + 12) 1
  r1.1.memoryStoreWI mem2 wiB (bufA + 12) 1 (fun _ => v)

/-- First access of the C4 counterexample: work-item 0 stores 2 bytes at
the start of the global buffer. -/
def c4store : RaceDetector × List Diagnostic :=
  rdReady.memoryStoreWI gmem wiG0 bufA 2 (fun _ => 1)

/-- Second access of the C4 counterexample: work-item 2 performs a single
2-byte atomic access over the same bytes. -/
def c4atomic : RaceDetector × List Diagnostic :=
  c4store.1.memoryAtomic gmem wiG2 0 bufA 2

/-- The C5 counterexample run: work-item 0 stores byte 0 (recording its
current instruction, handle 5), then `kernelEnd` runs the global
synchronize. -/
def c5run : RaceDetector :=
  (rdReady.memoryStoreWI gmem wiG0 bufA 1 (fun _ => 1)).1.kernelEnd ki4x2

/-- First store of the C7 scenario: work-item `ia` (group 0) stores `v` at
byte 0 of the freshly allocated global buffer; `env` is the presence of
`OCLGRIND_UNIFORM_WRITES`. -/
def c7store1 (env : Bool) (ia v : Nat) : RaceDetector × List Diagnostic :=
  let wiA : WorkItem := ⟨ia, some 5, wg0⟩
  (((RaceDetector.create env gmem).kernelBegin ki4x2).memoryAllocated gmem bufA 16).memoryStoreWI
    gmem wiA bufA 1 (fun _ => v)

/-- Second store of the C7 scenario: work-item `ib` (group 1) stores the
identical value `v` at the same byte while the memory content there
is `c`. -/
def c7store2 (env : Bool) (ia ib v c : Nat) : RaceDetector × List Diagnostic :=
  let wiB : WorkItem := ⟨ib, some 7, wg1⟩
  let mem2 : Memory := ⟨0, AddrSpace.Global, fun _ => c⟩
  (c7store1 env ia v).1.memoryStoreWI mem2 wiB bufA 1 (fun _ => v)

/-- The C8 scenario up to the barrier: work-item `i0` of group `g0` stores
`v` at byte 8 of the global buffer, then its group executes
`workGroupBarrier` with `CLK_GLOBAL_MEM_FENCE`. -/
def c8setup (i0 g0 v : Nat) : RaceDetector :=
  let wgA : WorkGroup := ⟨g0, lmem0⟩
  let wiA : WorkItem := ⟨i0, some 5, wgA⟩
  let r1 := (((RaceDetector.create false gmem).kernelBegin ki4x2).memoryAllocated
    gmem bufA 16).memoryStoreWI gmem wiA (bufA + 8) 1 (fun _ => v)
  r1.1.workGroupBarrier wgA CLK_GLOBAL_MEM_FENCE

/-- The C8 load: afterwards work-item `i2` of a different group `g1` loads
the same byte. -/
def c8load (i0 g0 v i2 g1 : Nat) : RaceDetector × List Diagnostic :=
  let wgB : WorkGroup := ⟨g1, lmem1⟩
  let wiB : WorkItem := ⟨i2, some 7, wgB⟩
  (c8setup i0 g0 v).memoryLoadWI gmem wiB (bufA + 8) 1

/-- Claim C1 (code bug).  After work-item 2 of group 1 stores a byte, the
shadow byte records `workItem = 2` and `workGroup = 1`; when work-item 0 of
group 0 then races on that byte, the call sites pass `state->workItem` and
`state->workGroup` into `logRace`'s parameters `lastWorkGroup` and
`lastWorkItem` IN THAT ORDER, so the classifier receives the recorded
work-item (2) as its last-work-GROUP and the recorded work-group (1) as its
last-work-ITEM, and the diagnostic's Second entity is rendered from the
recorded work-group index 1 decomposed as a GLOBAL work-item index —
`Global(1,0,0) Local(1,0,0) Group(0,0,0)` — not from the recorded
work-item 2 (which would give `Global(2,0,0) Local(0,0,0) Group(1,0,0)`)
as the claim states. -/
theorem C1_logRace_swapped :
    (c1store1.1.byteAt (0, 1) 0).workItem = 2 ∧
    (c1store1.1.byteAt (0, 1) 0).workGroup = 1 ∧
    c1run.2 = [⟨DataRaceType.WriteWriteRace, AddrSpace.Global, bufA, 2, 1, some 7⟩] ∧
    c1run.2.map (renderSecondEntity ki4x2) =
      [SecondEntity.workItemCoords ⟨1, 0, 0⟩ ⟨1, 0, 0⟩ ⟨0, 0, 0⟩] ∧
    c1run.2.map (renderSecondEntity ki4x2) ≠
      [SecondEntity.workItemCoords ⟨2, 0, 0⟩ ⟨0, 0, 0⟩ ⟨1, 0, 0⟩] := by
  decide

/-- Claim C2 counterexample.  In the claim's scenario — work-item 0 of
group 0 performs an atomic access on byte 12, then work-item 2 of group 1
stores a differing value there — a diagnostic is emitted but its kind is
`WriteWriteRace`, not `ReadWriteRace` as the claim states. -/
theorem C2_counterexample :
    (c2scenario true 0 2 0 1).2.map Diagnostic.raceType = [DataRaceType.WriteWriteRace] ∧
    (c2scenario true 0 2 0 1).2.map Diagnostic.raceType ≠ [DataRaceType.ReadWriteRace] := by
  decide

/-- Claim C3 (code bug).  `memoryAtomic` has no `AddrSpacePrivate` guard:
an atomic access on a private memory object makes `m_state[KEY]`
value-initialize and insert a map entry, so the shadow store is mutated
(with an empty detector the key set changes from `[]` to `[(5, 1)]`; the
C++ code then dereferences the null shadow pointer of that entry). -/
theorem C3_private_atomic_inserts_key :
    (RaceDetector.create false gmem).state.map Prod.fst = [] ∧
    ((RaceDetector.create false gmem).memoryAtomic pmem wiG0 0 bufA 1).1.state.map Prod.fst
      = [(5, 1)] := by
  decide

/-- Claim C4 counterexample.  A single 2-byte atomic access whose two bytes
both conflict with an earlier non-atomic store emits TWO race diagnostics:
`memoryAtomic`'s loop has no once-per-access latch. -/
theorem C4_counterexample :
    c4atomic.2.length = 2 ∧ ¬ c4atomic.2.length ≤ 1 := by
  decide

/-- Claim C5 counterexample.  After a store recorded instruction handle 5
on byte 0 and `kernelEnd` ran `synchronize(global, false)`, every field of
the shadow byte is reset EXCEPT `instruction`, which still holds the
handle; the claim's `instruction = none` fails. -/
theorem C5_counterexample :
    c5run.byteAt (0, 1) 0 = ⟨some 5, NONE, NONE, true, true, true, false⟩ ∧
    (c5run.byteAt (0, 1) 0).instruction ≠ none := by
  decide

section LsBytesLemmas

variable (auw : Bool) (memory : Memory) (wiIdx wgIdx : Nat) (workItem : Option WorkItem)
variable (address : Nat) (storeData : Option (Nat → Nat)) (base : Nat)

theorem lsBytes_latched (offs : List Nat) :
    ∀ (sh : Option (Nat → State)) (diags : List Diagnostic),
    (lsBytes auw memory wiIdx wgIdx workItem address storeData base offs sh true diags).2.2
      = diags := by
  induction offs with
  | nil => intro sh diags; rfl
  | cons o rest ih => intro sh diags; simp [lsBytes, ih]

theorem lsBytes_diags_length (offs : List Nat) :
    ∀ (sh : Option (Nat → State)) (diags : List Diagnostic),
    (lsBytes auw memory wiIdx wgIdx workItem address storeData base offs sh false diags).2.2.length
      ≤ diags.length + 1 := by
  induction offs with
  | nil => intro sh diags; simp [lsBytes]
  | cons o rest ih =>
    intro sh diags
    simp only [lsBytes]
    split
    · rw [lsBytes_latched]
      simp
    · exact ih _ _

theorem readShadow_writeShadow_ne (sh : Option (Nat → State)) (i j : Nat) (s : State)
    (h : i ≠ j) : readShadow (writeShadow sh j s) i = readShadow sh i := by
  cases sh with
  | none => rfl
  | some f => simp [readShadow, writeShadow, h]

theorem lsBytes_shadow_stable (offs : List Nat) :
    ∀ (i : Nat), i ∉ offs → ∀ (sh : Option (Nat → State)) (race : Bool)
      (diags : List Diagnostic),
    readShadow
        (lsBytes auw memory wiIdx wgIdx workItem address storeData base offs sh race diags).1
        (base + i)
      = readShadow sh (base + i) := by
  induction offs with
  | nil => intro i _ sh race diags; rfl
  | cons o rest ih =>
    intro i hi sh race diags
    have hio : i ≠ o := fun e => hi (List.mem_cons.mpr (Or.inl e))
    have hir : i ∉ rest := fun m => hi (List.mem_cons.mpr (Or.inr m))
    simp only [lsBytes]
    split
    · exact ih i hir sh true _
    · rw [ih i hir _ race diags]
      exact readShadow_writeShadow_ne _ _ _ _ (by omega)

theorem lsBytes_report_byte (offs : List Nat) (hnd : offs.Nodup) :
    ∀ (sh : Option (Nat → State)) (diags : List Diagnostic) (d : Diagnostic),
    (lsBytes auw memory wiIdx wgIdx workItem address storeData base offs sh false diags).2.2
        = diags ++ [d] →
    ∃ o, o ∈ offs ∧ d.address = address + o ∧
      readShadow
          (lsBytes auw memory wiIdx wgIdx workItem address storeData base offs sh false diags).1
          (base + o)
        = readShadow sh (base + o) := by
  induction offs with
  | nil =>
    intro sh diags d h
    exact absurd (congrArg List.length h) (by simp [lsBytes])
  | cons o rest ih =>
    intro sh diags d h
    have hno : o ∉ rest := (List.nodup_cons.mp hnd).1
    have hnd' : rest.Nodup := (List.nodup_cons.mp hnd).2
    simp only [lsBytes] at h ⊢
    split at h
    · next hc =>
      rw [lsBytes_latched] at h
      have hd : d = logRace (lsRaceType storeData (readShadow sh (base + o)))
          memory.addressSpace (address + o) (readShadow sh (base + o)).workItem
          (readShadow sh (base + o)).workGroup (readShadow sh (base + o)).instruction := by
        have := List.append_cancel_left h
        simpa using this.symm
      refine ⟨o, List.mem_cons_self o rest, ?_, ?_⟩
      · rw [hd]; rfl
      · rw [if_pos hc]
        exact lsBytes_shadow_stable auw memory wiIdx wgIdx workItem address storeData base
          rest o hno sh true _
    · next hc =>
      obtain ⟨o', ho', ha', hsh'⟩ := ih hnd' _ diags d h
      refine ⟨o', List.mem_cons_of_mem o ho', ha', ?_⟩
      rw [if_neg hc]
      rw [hsh']
      exact readShadow_writeShadow_ne _ _ _ _ (by
        have : o' ≠ o := fun e => hno (e ▸ ho')
        omega)

end LsBytesLemmas

theorem StateMap.find_set_self (m : StateMap) (k : Key) (v : ShadowObj) :
    StateMap.find (StateMap.set m k v) k = some v := by
  induction m with
  | nil => simp [StateMap.set, StateMap.find]
  | cons e t ih =>
    unfold StateMap.set
    by_cases h : (e.1 == k) = true
    · rw [if_pos h]
      simp [StateMap.find]
    · rw [if_neg h]
      unfold StateMap.find
      rw [if_neg h]
      exact ih

theorem registerLoadStore_diags_le_one (rd : RaceDetector) (memory : Memory)
    (workItem : Option WorkItem) (workGroup : Option WorkGroup) (address size : Nat)
    (storeData : Option (Nat → Nat)) :
    (rd.registerLoadStore memory workItem workGroup address size storeData).2.length ≤ 1 := by
  unfold RaceDetector.registerLoadStore
  split
  · simp
  · split
    · simp
    · simpa using lsBytes_diags_length rd.allowUniformWrites memory _ _ workItem address
        storeData (EXTRACT_OFFSET address) (List.range size) _ []

/-- Claim C4 (amended).  For every single NON-ATOMIC access event — load or
store, work-item or work-group form — over a byte range of any size, at
most one race diagnostic is emitted: the `race` latch in
`registerLoadStore` makes the first racing byte win.  (Atomic accesses are
excluded: `memoryAtomic` has no latch and emits one diagnostic per
conflicting byte, see the counterexample.) -/
theorem C4_at_most_one_nonatomic (rd : RaceDetector) (memory : Memory)
    (workItem : WorkItem) (workGroup : WorkGroup) (address size : Nat)
    (storeData : Nat → Nat) :
    (rd.memoryLoadWI memory workItem address size).2.length ≤ 1 ∧
    (rd.memoryLoadWG memory workGroup address size).2.length ≤ 1 ∧
    (rd.memoryStoreWI memory workItem address size storeData).2.length ≤ 1 ∧
    (rd.memoryStoreWG memory workGroup address size storeData).2.length ≤ 1 :=
  ⟨registerLoadStore_diags_le_one rd memory _ _ address size none,
   registerLoadStore_diags_le_one rd memory _ _ address size none,
   registerLoadStore_diags_le_one rd memory _ _ address size (some storeData),
   registerLoadStore_diags_le_one rd memory _ _ address size (some storeData)⟩

theorem byteAt_eq_index (rd : RaceDetector) (k : Key) (i : Nat) :
    rd.byteAt k i = readShadow (StateMap.index rd.state k).2.1 i := by
  unfold RaceDetector.byteAt StateMap.index
  cases h : StateMap.find rd.state k <;> simp [readShadow]

theorem StateMap.find_syncMap (m : StateMap) (memId : Nat) (wg : Bool) (k : Key) :
    StateMap.find (m.map (fun e => (e.1, syncObj memId wg e.1 e.2))) k
      = (StateMap.find m k).map (syncObj memId wg k) := by
  induction m with
  | nil => rfl
  | cons e t ih =>
    simp only [List.map_cons]
    unfold StateMap.find
    by_cases h : (e.1 == k) = true
    · rw [if_pos h, if_pos h]
      have he : e.1 = k := eq_of_beq h
      rw [he]
      rfl
    · rw [if_neg h, if_neg h]
      exact ih

/-- Claim C5 (amended).  After `synchronize(space, false)` — as performed
by `kernelEnd` on global memory — every byte of every region of that
memory object is reset to `work_item = none`, `work_group = none`,
`was_work_item = false`, `can_read = can_write = can_atomic = true`, but
`instruction` is NOT cleared: it keeps whatever value it had (the loop in
`synchronize` never touches `state->instruction`). -/
theorem C5_global_sync_reset (rd : RaceDetector) (memory : Memory) (k : Key) (i : Nat)
    (hk : k.1 = memory.id) (hi : i < rd.sizeAt k) :
    (rd.synchronize memory false).byteAt k i =
      { rd.byteAt k i with
        workItem := NONE, workGroup := NONE, wasWorkItem := false,
        canRead := true, canWrite := true, canAtomic := true } := by
  unfold RaceDetector.sizeAt at hi
  unfold RaceDetector.byteAt RaceDetector.synchronize
  simp only [StateMap.find_syncMap]
  cases hf : StateMap.find rd.state k with
  | none => rw [hf] at hi; simp at hi
  | some obj =>
    rw [hf] at hi
    simp only [Option.map_some']
    unfold syncObj
    rw [if_pos hk]
    cases obj with
    | mk sh n =>
      cases sh with
      | none => rfl
      | some f =>
        simp only [Option.map_some', readShadow]
        have : i < n := hi
        rw [if_pos this]
        unfold syncState
        rfl

/-- Witness for C5: in the concrete `c5run` scenario prefix (work-item 0
stored byte 0, so its shadow byte holds instruction handle 5), a global
synchronize resets every field except the instruction. -/
theorem C5_global_sync_reset_witness :
    ((rdReady.memoryStoreWI gmem wiG0 bufA 1 (fun _ => 1)).1.synchronize gmem false).byteAt
        (0, 1) 0
      = { (rdReady.memoryStoreWI gmem wiG0 bufA 1 (fun _ => 1)).1.byteAt (0, 1) 0 with
          workItem := NONE, workGroup := NONE, wasWorkItem := false,
          canRead := true, canWrite := true, canAtomic := true } :=
  C5_global_sync_reset _ gmem (0, 1) 0 rfl (by decide)

/-- Claim C9.  While no kernel invocation is current
(`m_kernelInvocation == NULL`), every `memoryLoad` and `memoryStore` event
— work-item or work-group form — returns the detector completely unchanged
and emits no diagnostic (`registerLoadStore` returns immediately). -/
theorem C9_no_kernel_noop (rd : RaceDetector) (h : rd.kernelInvocation = none)
    (memory : Memory) (workItem : WorkItem) (workGroup : WorkGroup) (address size : Nat)
    (storeData : Nat → Nat) :
    rd.memoryLoadWI memory workItem address size = (rd, []) ∧
    rd.memoryLoadWG memory workGroup address size = (rd, []) ∧
    rd.memoryStoreWI memory workItem address size storeData = (rd, []) ∧
    rd.memoryStoreWG memory workGroup address size storeData = (rd, []) := by
  have hn : rd.kernelInvocation.isNone = true := by rw [h]; rfl
  refine ⟨?_, ?_, ?_, ?_⟩ <;>
    simp [RaceDetector.memoryLoadWI, RaceDetector.memoryLoadWG,
      RaceDetector.memoryStoreWI, RaceDetector.memoryStoreWG,
      RaceDetector.registerLoadStore, hn]

/-- Witness for C9: a freshly constructed detector (no `kernelBegin` yet)
ignores loads and stores. -/
theorem C9_no_kernel_noop_witness :
    (RaceDetector.create false gmem).memoryLoadWI gmem wiG0 bufA 4
        = (RaceDetector.create false gmem, []) ∧
    (RaceDetector.create false gmem).memoryLoadWG gmem wg0 bufA 4
        = (RaceDetector.create false gmem, []) ∧
    (RaceDetector.create false gmem).memoryStoreWI gmem wiG0 bufA 4 (fun _ => 0)
        = (RaceDetector.create false gmem, []) ∧
    (RaceDetector.create false gmem).memoryStoreWG gmem wg0 bufA 4 (fun _ => 0)
        = (RaceDetector.create false gmem, []) :=
  C9_no_kernel_noop (RaceDetector.create false gmem) rfl gmem wiG0 wg0 bufA 4 (fun _ => 0)

/-- Claim C10.  For a non-atomic load or store whose diagnostic list is
`[d]`, the byte that triggered the report — the one at offset `o` with
`d.address = address + o` — has its shadow state left completely unchanged
by the access (the state update lives entirely in the non-reporting branch
of the loop). -/
theorem C10_racing_byte_unchanged (rd : RaceDetector) (memory : Memory)
    (workItem : Option WorkItem) (workGroup : Option WorkGroup) (address size : Nat)
    (storeData : Option (Nat → Nat)) (d : Diagnostic) (o : Nat)
    (hd : (rd.registerLoadStore memory workItem workGroup address size storeData).2 = [d])
    (_ho : o < size) (ha : d.address = address + o) :
    (rd.registerLoadStore memory workItem workGroup address size storeData).1.byteAt
        (memory.id, EXTRACT_BUFFER address) (EXTRACT_OFFSET address + o)
      = rd.byteAt (memory.id, EXTRACT_BUFFER address) (EXTRACT_OFFSET address + o) := by
  by_cases h1 : rd.kernelInvocation.isNone = true
  · unfold RaceDetector.registerLoadStore at hd
    rw [if_pos h1] at hd
    simp at hd
  · by_cases h2 : memory.addressSpace = AddrSpace.Private
    · unfold RaceDetector.registerLoadStore at hd
      rw [if_neg h1, if_pos h2] at hd
      simp at hd
    · unfold RaceDetector.registerLoadStore at hd ⊢
      rw [if_neg h1, if_neg h2] at hd ⊢
      simp only at hd ⊢
      obtain ⟨o', ho', ha', hsh⟩ :=
        lsBytes_report_byte rd.allowUniformWrites memory _ _ workItem address storeData
          (EXTRACT_OFFSET address) (List.range size) (List.nodup_range size)
          (StateMap.index rd.state (memory.id, EXTRACT_BUFFER address)).2.1 [] d
          (by simpa using hd)
      have hoo : o' = o := by
        rw [ha] at ha'
        omega
      rw [hoo] at hsh
      rw [byteAt_eq_index rd (memory.id, EXTRACT_BUFFER address) (EXTRACT_OFFSET address + o)]
      unfold RaceDetector.byteAt
      simp only
      rw [StateMap.find_set_self]
      exact hsh

/-- Witness for C10: in the concrete C1 scenario the racing store's
diagnostic is attributed to byte 0, and that byte's shadow state is
unchanged by the access. -/
theorem C10_racing_byte_unchanged_witness :
    (c1store1.1.registerLoadStore gmemBB (some wiG0) (some wg0) bufA 1
        (some (fun _ => 0xAA))).1.byteAt (gmemBB.id, EXTRACT_BUFFER bufA)
        (EXTRACT_OFFSET bufA + 0)
      = c1store1.1.byteAt (gmemBB.id, EXTRACT_BUFFER bufA) (EXTRACT_OFFSET bufA + 0) :=
  C10_racing_byte_unchanged c1store1.1 gmemBB (some wiG0) (some wg0) bufA 1
    (some (fun _ => 0xAA)) ⟨DataRaceType.WriteWriteRace, AddrSpace.Global, bufA, 2, 1, some 7⟩
    0 (by decide) (by decide) (by decide)

/-- Claim C6.  When a non-atomic access conflicts on a byte (for a load,
`can_read` cleared; for a store, `can_write` cleared and, under the
uniform-write filter, the value differing from memory) and the same-entity
exception does not apply, the reported race kind is: for a load, always
`ReadWriteRace`; for a store, `WriteWriteRace` if the byte's `can_read` was
already false at the moment of the access and `ReadWriteRace` otherwise. -/
theorem C6_race_kind (auw : Bool) (memory : Memory) (wiIdx wgIdx : Nat)
    (workItem : Option WorkItem) (address : Nat) (storeData : Option (Nat → Nat))
    (base offset : Nat) (sh : Option (Nat → State)) (diags : List Diagnostic)
    (hconf : match storeData with
      | none => (readShadow sh (base + offset)).canRead = false
      | some data => (readShadow sh (base + offset)).canWrite = false ∧
          (auw = true → memory.contents (address + offset) ≠ data offset))
    (hent : if (readShadow sh (base + offset)).wasWorkItem
      then (readShadow sh (base + offset)).workItem ≠ wiIdx
      else (readShadow sh (base + offset)).workGroup ≠ wgIdx) :
    (lsBytes auw memory wiIdx wgIdx workItem address storeData base [offset] sh false diags).2.2
      = diags ++ [logRace
          (if storeData.isNone then DataRaceType.ReadWriteRace
           else if (readShadow sh (base + offset)).canRead = true then DataRaceType.ReadWriteRace
           else DataRaceType.WriteWriteRace)
          memory.addressSpace (address + offset)
          (readShadow sh (base + offset)).workItem
          (readShadow sh (base + offset)).workGroup
          (readShadow sh (base + offset)).instruction] := by
  have hc : lsConflict auw memory address storeData offset (readShadow sh (base + offset))
      = true := by
    unfold lsConflict
    cases storeData with
    | none => simpa using hconf
    | some data =>
      obtain ⟨hw, hmem⟩ := hconf
      cases auw with
      | false => simp [hw]
      | true => simp [hw, bne_iff_ne, hmem rfl]
  have he : lsOtherActor wiIdx wgIdx (readShadow sh (base + offset)) = true := by
    unfold lsOtherActor
    cases hw : (readShadow sh (base + offset)).wasWorkItem <;>
      simp [hw] at hent <;> simp [bne_iff_ne, hent]
  have ht : lsRaceType storeData (readShadow sh (base + offset))
      = (if storeData.isNone then DataRaceType.ReadWriteRace
         else if (readShadow sh (base + offset)).canRead = true then DataRaceType.ReadWriteRace
         else DataRaceType.WriteWriteRace) := by
    unfold lsRaceType
    cases storeData with
    | none => simp
    | some data => cases hr : (readShadow sh (base + offset)).canRead <;> simp [hr]
  simp only [lsBytes]
  rw [if_pos (by simp [hc, he])]
  simp only
  rw [ht]

/-- Witness for C6: a concrete conflicting store (prior state set by
work-item 4 with `can_read` already cleared, current work-item 9) reports
`WriteWriteRace`. -/
theorem C6_race_kind_witness :
    (lsBytes true gmem 9 0 none 0 (some (fun _ => 1)) 0 [0]
        (some (fun _ => ⟨some 3, 4, 5, false, false, false, true⟩)) false []).2.2
      = [logRace DataRaceType.WriteWriteRace AddrSpace.Global 0 4 5 (some 3)] := by
  have h := C6_race_kind true gmem 9 0 none 0 (some (fun _ => 1)) 0 0
    (some (fun _ => ⟨some 3, 4, 5, false, false, false, true⟩)) []
    (by exact ⟨rfl, fun _ => by decide⟩) (by decide)
  simpa using h

/-- Claim C2 (amended).  If work-item `i0` of group 0 performs an atomic
access on a byte of an allocated global region and afterwards (no barrier
between) work-item `i2 ≠ i0` of group 1 performs a non-atomic store to the
same byte whose value differs from the current memory content, then
exactly one race diagnostic is emitted for that store and its race kind is
`WriteWriteRace` (the atomic access cleared `can_read`, so the store
classifier at line 225 picks `WriteWriteRace`, not `ReadWriteRace` as the
claim stated). -/
theorem C2_atomic_then_store_kind (auw : Bool) (i0 i2 v c : Nat)
    (hne : i0 ≠ i2) (hcv : c ≠ v) :
    (c2scenario auw i0 i2 v c).2
      = [logRace DataRaceType.WriteWriteRace AddrSpace.Global (bufA + 12) i0 NONE
          (some 5)] := by
  have hb1 : (i0 != i2) = true := bne_iff_ne.mpr hne
  have hb2 : (c != v) = true := bne_iff_ne.mpr hcv
  simp [c2scenario, RaceDetector.memoryAllocated, RaceDetector.memoryAtomic,
    RaceDetector.memoryStoreWI, RaceDetector.registerLoadStore, lsBytes, atomicBytes,
    lsConflict, lsOtherActor, lsRaceType, lsUpdate, StateMap.set, StateMap.find,
    StateMap.index, readShadow, writeShadow, logRace, State.init, EXTRACT_BUFFER,
    EXTRACT_OFFSET, bufA, gmem, wg0, wg1, ki4x2, hb1, hb2, List.range_succ]

/-- Witness for C2: at `i0 = 0`, `i2 = 2`, value 0, memory content 1 the
amended scenario emits the single `WriteWriteRace` diagnostic. -/
theorem C2_atomic_then_store_kind_witness :
    (c2scenario true 0 2 0 1).2
      = [logRace DataRaceType.WriteWriteRace AddrSpace.Global (bufA + 12) 0 NONE
          (some 5)] :=
  C2_atomic_then_store_kind true 0 2 0 1 (by decide) (by decide)

/-- Claim C7.  Two stores of the identical byte value `v` to the same byte
of an allocated global region by two different work-items with no
synchronization between them: the first store never reports, and the
second store emits a race diagnostic if and only if `allow-uniform-writes`
is false (the environment variable `OCLGRIND_UNIFORM_WRITES` was set,
`env = true`) or the current memory content `c` at that byte differs from
the value written. -/
theorem C7_uniform_write_iff (env : Bool) (ia ib v c : Nat) (hne : ia ≠ ib) :
    (c7store1 env ia v).2 = [] ∧
    ((c7store2 env ia ib v c).2 ≠ [] ↔ (env = true ∨ c ≠ v)) := by
  have hb1 : (ia != ib) = true := bne_iff_ne.mpr hne
  constructor
  · simp [c7store1, RaceDetector.create, RaceDetector.kernelBegin,
      RaceDetector.memoryAllocated, RaceDetector.memoryStoreWI,
      RaceDetector.registerLoadStore, lsBytes, lsConflict, lsOtherActor, lsUpdate,
      StateMap.set, StateMap.find, StateMap.index, readShadow, writeShadow, State.init,
      EXTRACT_BUFFER, EXTRACT_OFFSET, bufA, gmem, wg0, ki4x2, List.range_succ]
  · cases env with
    | true =>
      have hd : (c7store2 true ia ib v c).2
          = [logRace DataRaceType.WriteWriteRace AddrSpace.Global bufA ia 0 (some 5)] := by
        simp [c7store2, c7store1, RaceDetector.create, RaceDetector.kernelBegin,
          RaceDetector.memoryAllocated, RaceDetector.memoryStoreWI,
          RaceDetector.registerLoadStore, lsBytes, lsConflict, lsOtherActor, lsRaceType,
          lsUpdate, StateMap.set, StateMap.find, StateMap.index, readShadow, writeShadow,
          logRace, State.init, EXTRACT_BUFFER, EXTRACT_OFFSET, bufA, gmem, wg0, wg1,
          ki4x2, hb1, List.range_succ]
      rw [hd]
      simp
    | false =>
      by_cases hcv : c = v
      · subst hcv
        have hd : (c7store2 false ia ib c c).2 = [] := by
          simp [c7store2, c7store1, RaceDetector.create, RaceDetector.kernelBegin,
            RaceDetector.memoryAllocated, RaceDetector.memoryStoreWI,
            RaceDetector.registerLoadStore, lsBytes, lsConflict, lsOtherActor,
            lsUpdate, StateMap.set, StateMap.find, StateMap.index, readShadow,
            writeShadow, State.init, EXTRACT_BUFFER, EXTRACT_OFFSET, bufA, gmem, wg0,
            wg1, ki4x2, List.range_succ]
        rw [hd]
        simp
      · have hb2 : (c != v) = true := bne_iff_ne.mpr hcv
        have hd : (c7store2 false ia ib v c).2
            = [logRace DataRaceType.WriteWriteRace AddrSpace.Global bufA ia 0 (some 5)] := by
          simp [c7store2, c7store1, RaceDetector.create, RaceDetector.kernelBegin,
            RaceDetector.memoryAllocated, RaceDetector.memoryStoreWI,
            RaceDetector.registerLoadStore, lsBytes, lsConflict, lsOtherActor,
            lsRaceType, lsUpdate, StateMap.set, StateMap.find, StateMap.index,
            readShadow, writeShadow, logRace, State.init, EXTRACT_BUFFER,
            EXTRACT_OFFSET, bufA, gmem, wg0, wg1, ki4x2, hb1, hb2, List.range_succ]
        rw [hd]
        simp [hcv]

/-- Witness for C7: with the environment variable set (`env = true`) and
identical content (`c = v = 7`), the diagnostic is emitted. -/
theorem C7_uniform_write_iff_witness :
    (c7store1 true 0 7).2 = [] ∧
    ((c7store2 true 0 2 7 7).2 ≠ [] ↔ (true = true ∨ (7 : Nat) ≠ 7)) :=
  C7_uniform_write_iff true 0 2 7 7 (by decide)

/-- Claim C8.  After one work-item of group `g0` stores a global byte and
a `workGroupBarrier` with `GLOBAL_MEM_FENCE` runs
`synchronize(global, work-group-only=true)`, that byte holds
`can_atomic = true`, `work_item = none`, `was_work_item = false` while
`work_group = g0`, `can_read = false`, `can_write = false`; a subsequent
load of the byte by a work-item of a different group `g1 ≠ g0` emits a
`ReadWriteRace` diagnostic. -/
theorem C8_barrier_global_race (i0 g0 v i2 g1 : Nat) (hg : g0 ≠ g1) :
    (c8setup i0 g0 v).byteAt (0, 1) 8 = ⟨some 5, NONE, g0, true, false, false, false⟩ ∧
    (c8load i0 g0 v i2 g1).2
      = [logRace DataRaceType.ReadWriteRace AddrSpace.Global (bufA + 8) NONE g0
          (some 5)] := by
  have hb : (g0 != g1) = true := bne_iff_ne.mpr hg
  have hmid : (c8setup i0 g0 v).byteAt (0, 1) 8
      = ⟨some 5, NONE, g0, true, false, false, false⟩ := by
    simp [c8setup, RaceDetector.create, RaceDetector.kernelBegin,
      RaceDetector.memoryAllocated, RaceDetector.memoryStoreWI,
      RaceDetector.registerLoadStore, RaceDetector.workGroupBarrier,
      RaceDetector.synchronize, RaceDetector.byteAt, syncObj, syncState,
      CLK_LOCAL_MEM_FENCE, CLK_GLOBAL_MEM_FENCE, lsBytes, lsConflict, lsOtherActor,
      lsUpdate, StateMap.set, StateMap.find, StateMap.index, readShadow, writeShadow,
      State.init, EXTRACT_BUFFER, EXTRACT_OFFSET, bufA, gmem, lmem0, ki4x2,
      List.range_succ]
  refine ⟨hmid, ?_⟩
  simp [c8load, c8setup, RaceDetector.create, RaceDetector.kernelBegin,
    RaceDetector.memoryAllocated, RaceDetector.memoryStoreWI, RaceDetector.memoryLoadWI,
    RaceDetector.registerLoadStore, RaceDetector.workGroupBarrier,
    RaceDetector.synchronize, syncObj, syncState, CLK_LOCAL_MEM_FENCE,
    CLK_GLOBAL_MEM_FENCE, lsBytes, lsConflict, lsOtherActor, lsRaceType, lsUpdate,
    StateMap.set, StateMap.find, StateMap.index, readShadow, writeShadow, logRace,
    State.init, EXTRACT_BUFFER, EXTRACT_OFFSET, bufA, gmem, lmem0, lmem1, ki4x2, hb,
    List.range_succ]

/-- Witness for C8: at `i0 = 0`, `g0 = 0`, `i2 = 2`, `g1 = 1` the barrier
preserves the conflict and the load races. -/
theorem C8_barrier_global_race_witness :
    (c8setup 0 0 1).byteAt (0, 1) 8 = ⟨some 5, NONE, 0, true, false, false, false⟩ ∧
    (c8load 0 0 1 2 1).2
      = [logRace DataRaceType.ReadWriteRace AddrSpace.Global (bufA + 8) NONE 0
          (some 5)] :=
  C8_barrier_global_race 0 0 1 2 1 (by decide)

end Oclgrind
